import Mathlib

/-!
Shallow embedding of the Task Tracking canister (src/src/index.ts).

The canister stores `Task` records in a `StableBTreeMap<string, Task>`;
we model the map as an association list kept in key order, the ambient
identity (`Principal`) as a `String`, timestamps (`nat64`, `ic.time()`)
as `Nat`, and the ISO current-time string used for due-date comparison
as a `String` parameter.  Each `$update` handler becomes a pure function
from the store (plus its arguments and the ambient values it reads) to a
result together with the post-call store; `$query` handlers are pure
functions of the store alone.
-/

namespace TaskCanister

/-- The `Task` record type of the canister (src/src/index.ts, lines 16-29).
`Principal` is modelled as `String` (the code only ever compares
`creator.toString()` with `caller.toString()`), `nat64` as `Nat`,
`Opt<nat64>` as `Option Nat`, `Vec<string>` as `List String`. -/
structure Task where
  creator : String
  id : String
  title : String
  description : String
  created_date : Nat
  updated_at : Option Nat
  due_date : String
  assigned_to : String
  tags : List String
  status : String
  priority : String
  comments : List String
deriving DecidableEq, Repr

/-- The `TaskPayload` record type (src/src/index.ts, lines 31-36). -/
structure TaskPayload where
  title : String
  description : String
  assigned_to : String
  due_date : String
deriving DecidableEq, Repr

/-- The `StableBTreeMap<string, Task>` store, modelled as an association
list ordered by key; `values()` enumerates in key order. -/
abbrev Store := List (String × Task)

/-- Model of `taskStorage.get(id)`: point lookup. -/
def Store.get : Store → String → Option Task
  | [], _ => none
  | (k, v) :: rest, id => if k = id then some v else Store.get rest id

/-- Model of `taskStorage.insert(id, task)`: insert or overwrite, keeping the
key order of the B-tree map. -/
def Store.insert : Store → String → Task → Store
  | [], id, t => [(id, t)]
  | (k, v) :: rest, id, t =>
    if id = k then (id, t) :: rest
    else if id < k then (id, t) :: (k, v) :: rest
    else (k, v) :: Store.insert rest id t

/-- Model of `taskStorage.remove(id)`: delete the binding for `id`. -/
def Store.remove (st : Store) (id : String) : Store :=
  st.filter (fun p => p.1 != id)

/-- Model of `taskStorage.values()`: all tasks in key order. -/
def Store.values (st : Store) : List Task :=
  st.map Prod.snd

/-- JavaScript `array.slice(b, e)` for non-negative indices: the elements
with index in `[b, e)`, clamped to the array length. -/
def jsSlice (l : List α) (b e : Nat) : List α :=
  (l.take e).drop b

/-- Constant `initialLoadSize = 4` (line 66). -/
def initialLoadSize : Nat := 4

/- Error message strings returned by the handlers, verbatim from the code. -/

def notFoundMsg (id : String) : String :=
  "Task with id:" ++ id ++ " not found"

def notFoundDeleteMsg (id : String) : String :=
  "Task with id:" ++ id ++ " not found, could not be deleted"

def notAuthorizedMsg : String :=
  "You are not authorized to access Task"

def notAuthorizedPriorityMsg : String :=
  "You are not authorized to set task priority"

def unassignedMsg : String :=
  "No one was assigned the task"

def invalidInputMsg : String :=
  "Missing or invalid input data"

def invalidTagsMsg : String :=
  "Invalid tags"

def overdueAdvisoryMsg : String :=
  "Task is overdue. Please complete it."

def notOverdueMsg : String :=
  "Task is not overdue or already completed."

/-- Handler `getInitialTasks()` (lines 72-76). -/
def getInitialTasks (st : Store) : Except String (List Task) :=
  Except.ok (jsSlice st.values 0 initialLoadSize)

/-- Handler `loadMoreTasks(offset, limit)` (lines 84-88). -/
def loadMoreTasks (st : Store) (offset limit : Nat) : Except String (List Task) :=
  Except.ok (jsSlice st.values offset (offset + limit))

/-- Handler `getTask(id, caller)` (lines 96-106). -/
def getTask (st : Store) (id caller : String) : Except String Task :=
  match st.get id with
  | none => Except.error (notFoundMsg id)
  | some task =>
    if task.creator ≠ caller then Except.error notAuthorizedMsg
    else Except.ok task

/-- Handler `getTaskByTags(tag)` (lines 113-117). -/
def getTaskByTags (st : Store) (tag : String) : Except String (List Task) :=
  Except.ok (st.values.filter (fun task => task.tags.contains tag))

/-- Handler `getTasksByStatus(status)` (lines 268-272). -/
def getTasksByStatus (st : Store) (status : String) : Except String (List Task) :=
  Except.ok (st.values.filter (fun task => task.status == status))

/-- Handler `getTasksByCreator(creator)` (lines 319-323). -/
def getTasksByCreator (st : Store) (creator : String) : Except String (List Task) :=
  Except.ok (st.values.filter (fun task => task.creator == creator))

/-- Handler `getOverdueTasks()` (lines 329-336): `now` is the ambient
`new Date().toISOString()`; `<` is JavaScript lexicographic string
comparison. -/
def getOverdueTasks (st : Store) (now : String) : Except String (List Task) :=
  Except.ok (st.values.filter
    (fun task => decide (task.due_date < now) && !(task.status == "Completed")))

/-- Handler `completedTask(id)` (lines 140-152).  Takes no caller; the JavaScript
truthiness test `!task.assigned_to` is emptiness of the string. -/
def completedTask (st : Store) (id : String) : Except String Task × Store :=
  match st.get id with
  | none => (Except.error (notFoundMsg id), st)
  | some task =>
    if task.assigned_to = "" then (Except.error unassignedMsg, st)
    else
      let completeTask : Task := { task with status := "Completed" }
      (Except.ok completeTask, st.insert task.id completeTask)

/-- Handler `addTask(payload, caller)` (lines 160-178).  The generated `uuidv4()`
and the ambient `ic.time()` are passed in as `newId` and `now`; the
JavaScript truthiness tests on the payload fields are string emptiness. -/
def addTask (st : Store) (payload : TaskPayload) (caller newId : String) (now : Nat) :
    Except String Task × Store :=
  if payload.title = "" ∨ payload.description = "" ∨
      payload.assigned_to = "" ∨ payload.due_date = "" then
    (Except.error invalidInputMsg, st)
  else
    let newTask : Task :=
      { creator := caller
        id := newId
        created_date := now
        updated_at := none
        tags := []
        status := "In Progress"
        priority := ""
        comments := []
        title := payload.title
        description := payload.description
        assigned_to := payload.assigned_to
        due_date := payload.due_date }
    (Except.ok newTask, st.insert newTask.id newTask)

/-- Handler `addTags(id, tags, caller)` (lines 187-202): `now` is the ambient
`ic.time()` used to stamp `updated_at`. -/
def addTags (st : Store) (id : String) (tags : List String) (caller : String) (now : Nat) :
    Except String Task × Store :=
  if tags = [] then (Except.error invalidTagsMsg, st)
  else
    match st.get id with
    | none => (Except.error (notFoundMsg id), st)
    | some task =>
      if task.creator ≠ caller then (Except.error notAuthorizedMsg, st)
      else
        let updatedTask : Task :=
          { task with
            tags := task.tags ++ tags
            updated_at := some now }
        (Except.ok updatedTask, st.insert task.id updatedTask)

/-- Handler `updateTask(id, payload, caller)` (lines 211-223): the spread
`{...task, ...payload, updated_at: Opt.Some(ic.time())}` replaces the four
payload fields and stamps `updated_at`. -/
def updateTask (st : Store) (id : String) (payload : TaskPayload) (caller : String) (now : Nat) :
    Except String Task × Store :=
  match st.get id with
  | none => (Except.error (notFoundMsg id), st)
  | some task =>
    if task.creator ≠ caller then (Except.error notAuthorizedMsg, st)
    else
      let updatedTask : Task :=
        { task with
          title := payload.title
          description := payload.description
          assigned_to := payload.assigned_to
          due_date := payload.due_date
          updated_at := some now }
      (Except.ok updatedTask, st.insert task.id updatedTask)

/-- Handler `deleteTask(id, caller)` (lines 231-242). -/
def deleteTask (st : Store) (id caller : String) : Except String Task × Store :=
  match st.get id with
  | none => (Except.error (notFoundDeleteMsg id), st)
  | some task =>
    if task.creator ≠ caller then (Except.error notAuthorizedMsg, st)
    else (Except.ok task, st.remove id)

/-- Handler `addTaskComment(id, comment)` (lines 252-262).  No ownership check. -/
def addTaskComment (st : Store) (id comment : String) : Except String Task × Store :=
  match st.get id with
  | none => (Except.error (notFoundMsg id), st)
  | some task =>
    let updatedTask : Task := { task with comments := task.comments ++ [comment] }
    (Except.ok updatedTask, st.insert task.id updatedTask)

/-- Handler `setTaskPriority(id, priority, caller)` (lines 281-293).  Does not
stamp `updated_at`. -/
def setTaskPriority (st : Store) (id priority caller : String) : Except String Task × Store :=
  match st.get id with
  | none => (Except.error (notFoundMsg id), st)
  | some task =>
    if task.creator ≠ caller then (Except.error notAuthorizedPriorityMsg, st)
    else
      let updatedTask : Task := { task with priority := priority }
      (Except.ok updatedTask, st.insert task.id updatedTask)

/-- Handler `sendDueDateReminder(id)` (lines 300-312): `now` is the ambient
`new Date().toISOString()`.  Reads the store but never writes it. -/
def sendDueDateReminder (st : Store) (id now : String) : Except String String × Store :=
  match st.get id with
  | none => (Except.error (notFoundMsg id), st)
  | some task =>
    if task.due_date < now ∧ task.status ≠ "Completed" then
      (Except.ok overdueAdvisoryMsg, st)
    else
      (Except.error notOverdueMsg, st)


/-! ### Store lemmas -/

/-- Lookup after inserting at the same key returns the inserted task. -/
theorem Store.get_insert_self (st : Store) (k : String) (t : Task) :
    (st.insert k t).get k = some t := by
  induction st with
  | nil => simp [Store.insert, Store.get]
  | cons hd tl ih =>
    obtain ⟨k', v'⟩ := hd
    by_cases h1 : k = k'
    · simp [Store.insert, h1, Store.get]
    · by_cases h2 : k < k'
      · simp [Store.insert, h1, h2, Store.get]
      · simp only [Store.insert, if_neg h1, if_neg h2]
        have h3 : k' ≠ k := fun h => h1 h.symm
        simp [Store.get, h3, ih]

/-- Lookup after removing a key fails. -/
theorem Store.get_remove_self (st : Store) (k : String) :
    (st.remove k).get k = none := by
  induction st with
  | nil => rfl
  | cons hd tl ih =>
    obtain ⟨k', v'⟩ := hd
    by_cases h : k' = k
    · simpa [Store.remove, List.filter_cons, h] using ih
    · simpa [Store.remove, List.filter_cons, h, Store.get] using ih

/-! ### Success- and error-shape lemmas for the handlers -/

/-- Shape of `completedTask` on an existing, assigned task. -/
theorem completedTask_success (st : Store) (id : String) (task : Task)
    (hget : st.get id = some task) (ha : task.assigned_to ≠ "") :
    completedTask st id =
      (Except.ok { task with status := "Completed" },
       st.insert task.id { task with status := "Completed" }) := by
  simp [completedTask, hget, ha]

/-- Shape of `completedTask` on an existing task with no assignee. -/
theorem completedTask_unassigned_shape (st : Store) (id : String) (task : Task)
    (hget : st.get id = some task) (ha : task.assigned_to = "") :
    completedTask st id = (Except.error unassignedMsg, st) := by
  simp [completedTask, hget, ha]

/-- Shape of `addTags` on an existing task when called by its creator. -/
theorem addTags_success (st : Store) (id : String) (task : Task)
    (tags : List String) (caller : String) (now : Nat)
    (hget : st.get id = some task) (ht : tags ≠ []) (hc : task.creator = caller) :
    addTags st id tags caller now =
      (Except.ok { task with tags := task.tags ++ tags, updated_at := some now },
       st.insert task.id { task with tags := task.tags ++ tags, updated_at := some now }) := by
  simp [addTags, ht, hget, hc]

/-- Shape of `addTags` when the caller is not the creator. -/
theorem addTags_notAuth (st : Store) (id : String) (task : Task)
    (tags : List String) (caller : String) (now : Nat)
    (hget : st.get id = some task) (ht : tags ≠ []) (hc : task.creator ≠ caller) :
    addTags st id tags caller now = (Except.error notAuthorizedMsg, st) := by
  simp [addTags, ht, hget, hc]

/-- Shape of `updateTask` on an existing task when called by its creator. -/
theorem updateTask_success (st : Store) (id : String) (task : Task)
    (payload : TaskPayload) (caller : String) (now : Nat)
    (hget : st.get id = some task) (hc : task.creator = caller) :
    updateTask st id payload caller now =
      (Except.ok
        { task with
          title := payload.title
          description := payload.description
          assigned_to := payload.assigned_to
          due_date := payload.due_date
          updated_at := some now },
       st.insert task.id
        { task with
          title := payload.title
          description := payload.description
          assigned_to := payload.assigned_to
          due_date := payload.due_date
          updated_at := some now }) := by
  simp [updateTask, hget, hc]

/-- Shape of `updateTask` when the caller is not the creator. -/
theorem updateTask_notAuth (st : Store) (id : String) (task : Task)
    (payload : TaskPayload) (caller : String) (now : Nat)
    (hget : st.get id = some task) (hc : task.creator ≠ caller) :
    updateTask st id payload caller now = (Except.error notAuthorizedMsg, st) := by
  simp [updateTask, hget, hc]

/-- Shape of `deleteTask` when the caller is not the creator. -/
theorem deleteTask_notAuth (st : Store) (id : String) (task : Task) (caller : String)
    (hget : st.get id = some task) (hc : task.creator ≠ caller) :
    deleteTask st id caller = (Except.error notAuthorizedMsg, st) := by
  simp [deleteTask, hget, hc]

/-- Shape of `setTaskPriority` on an existing task when called by its creator. -/
theorem setTaskPriority_success (st : Store) (id priority caller : String) (task : Task)
    (hget : st.get id = some task) (hc : task.creator = caller) :
    setTaskPriority st id priority caller =
      (Except.ok { task with priority := priority },
       st.insert task.id { task with priority := priority }) := by
  simp [setTaskPriority, hget, hc]

/-- Shape of `setTaskPriority` when the caller is not the creator. -/
theorem setTaskPriority_notAuth (st : Store) (id priority caller : String) (task : Task)
    (hget : st.get id = some task) (hc : task.creator ≠ caller) :
    setTaskPriority st id priority caller = (Except.error notAuthorizedPriorityMsg, st) := by
  simp [setTaskPriority, hget, hc]

/-- Shape of `getTask` when the caller is not the creator. -/
theorem getTask_notAuth (st : Store) (id caller : String) (task : Task)
    (hget : st.get id = some task) (hc : task.creator ≠ caller) :
    getTask st id caller = Except.error notAuthorizedMsg := by
  simp [getTask, hget, hc]

/-- Shape of `addTaskComment` on an existing task. -/
theorem addTaskComment_success (st : Store) (id comment : String) (task : Task)
    (hget : st.get id = some task) :
    addTaskComment st id comment =
      (Except.ok { task with comments := task.comments ++ [comment] },
       st.insert task.id { task with comments := task.comments ++ [comment] }) := by
  simp [addTaskComment, hget]

/-- The reminder handler returns the same store on every path. -/
theorem sendDueDateReminder_store_eq (st : Store) (id now : String) :
    (sendDueDateReminder st id now).2 = st := by
  cases hg : st.get id with
  | none => simp [sendDueDateReminder, hg]
  | some task =>
    simp only [sendDueDateReminder, hg]
    split <;> rfl


/-! ### Error paths leave the store untouched -/

/-- On the error paths of `completedTask` the store is returned as is. -/
theorem completedTask_err_frame (st : Store) (id : String)
    (h : (completedTask st id).1.isOk = false) : (completedTask st id).2 = st := by
  cases hg : st.get id with
  | none => simp [completedTask, hg]
  | some task =>
    by_cases ha : task.assigned_to = ""
    · simp [completedTask, hg, ha]
    · rw [completedTask_success st id task hg ha] at h
      simp [Except.isOk, Except.toBool] at h

/-- On the error path of `addTask` the store is returned as is. -/
theorem addTask_err_frame (st : Store) (payload : TaskPayload) (caller newId : String)
    (now : Nat) (h : (addTask st payload caller newId now).1.isOk = false) :
    (addTask st payload caller newId now).2 = st := by
  by_cases hv : payload.title = "" ∨ payload.description = "" ∨
      payload.assigned_to = "" ∨ payload.due_date = ""
  · simp [addTask, hv]
  · simp [addTask, hv, Except.isOk, Except.toBool] at h

/-- On the error paths of `addTags` the store is returned as is. -/
theorem addTags_err_frame (st : Store) (id : String) (tags : List String)
    (caller : String) (now : Nat) (h : (addTags st id tags caller now).1.isOk = false) :
    (addTags st id tags caller now).2 = st := by
  by_cases ht : tags = []
  · simp [addTags, ht]
  · cases hg : st.get id with
    | none => simp [addTags, ht, hg]
    | some task =>
      by_cases hc : task.creator = caller
      · rw [addTags_success st id task tags caller now hg ht hc] at h
        simp [Except.isOk, Except.toBool] at h
      · rw [addTags_notAuth st id task tags caller now hg ht hc]

/-- On the error paths of `updateTask` the store is returned as is. -/
theorem updateTask_err_frame (st : Store) (id : String) (payload : TaskPayload)
    (caller : String) (now : Nat) (h : (updateTask st id payload caller now).1.isOk = false) :
    (updateTask st id payload caller now).2 = st := by
  cases hg : st.get id with
  | none => simp [updateTask, hg]
  | some task =>
    by_cases hc : task.creator = caller
    · rw [updateTask_success st id task payload caller now hg hc] at h
      simp [Except.isOk, Except.toBool] at h
    · rw [updateTask_notAuth st id task payload caller now hg hc]

/-- On the error paths of `deleteTask` the store is returned as is. -/
theorem deleteTask_err_frame (st : Store) (id caller : String)
    (h : (deleteTask st id caller).1.isOk = false) : (deleteTask st id caller).2 = st := by
  cases hg : st.get id with
  | none => simp [deleteTask, hg]
  | some task =>
    by_cases hc : task.creator = caller
    · simp [deleteTask, hg, hc, Except.isOk, Except.toBool] at h
    · rw [deleteTask_notAuth st id task caller hg hc]

/-- On the error path of `addTaskComment` the store is returned as is. -/
theorem addTaskComment_err_frame (st : Store) (id comment : String)
    (h : (addTaskComment st id comment).1.isOk = false) :
    (addTaskComment st id comment).2 = st := by
  cases hg : st.get id with
  | none => simp [addTaskComment, hg]
  | some task =>
    rw [addTaskComment_success st id comment task hg] at h
    simp [Except.isOk, Except.toBool] at h

/-- On the error paths of `setTaskPriority` the store is returned as is. -/
theorem setTaskPriority_err_frame (st : Store) (id priority caller : String)
    (h : (setTaskPriority st id priority caller).1.isOk = false) :
    (setTaskPriority st id priority caller).2 = st := by
  cases hg : st.get id with
  | none => simp [setTaskPriority, hg]
  | some task =>
    by_cases hc : task.creator = caller
    · rw [setTaskPriority_success st id priority caller task hg hc] at h
      simp [Except.isOk, Except.toBool] at h
    · rw [setTaskPriority_notAuth st id priority caller task hg hc]

/-! ### Concrete data used by witnesses and counterexamples -/

/-- A concrete task builder for examples. -/
def mkTask (creator id title assigned due : String) : Task :=
  { creator := creator
    id := id
    title := title
    description := "a description"
    created_date := 0
    updated_at := none
    due_date := due
    assigned_to := assigned
    tags := ["x"]
    status := "In Progress"
    priority := ""
    comments := [] }

/-- A task created by alice, assigned to bob, never yet updated. -/
def exTask : Task := mkTask "alice" "t1" "a title" "bob" "2024-01-01"

/-- A task with an empty assignee. -/
def exTaskUnassigned : Task := mkTask "alice" "t9" "a title" "" "2024-01-01"

/-- A one-task store. -/
def exStore : Store := [("t1", exTask)]

/-- A store holding a task with no assignee. -/
def exStoreUnassigned : Store := [("t9", exTaskUnassigned)]

/-- A payload with all four required fields non-empty. -/
def exPayload : TaskPayload :=
  { title := "new title"
    description := "new description"
    assigned_to := "carol"
    due_date := "2024-02-02" }

/-- A payload with an empty title. -/
def emptyTitlePayload : TaskPayload :=
  { title := ""
    description := "new description"
    assigned_to := "carol"
    due_date := "2024-02-02" }

/-- A five-task store with ordered keys t1 < t2 < t3 < t4 < t5. -/
def ex5Store : Store :=
  [("t1", mkTask "alice" "t1" "one" "bob" "2024-01-01"),
   ("t2", mkTask "alice" "t2" "two" "bob" "2024-01-02"),
   ("t3", mkTask "alice" "t3" "three" "bob" "2024-01-03"),
   ("t4", mkTask "alice" "t4" "four" "bob" "2024-01-04"),
   ("t5", mkTask "alice" "t5" "five" "bob" "2024-01-05")]

/-- Shape of `deleteTask` on an existing task when called by its creator. -/
theorem deleteTask_success (st : Store) (id caller : String) (task : Task)
    (hget : st.get id = some task) (hc : task.creator = caller) :
    deleteTask st id caller = (Except.ok task, st.remove id) := by
  simp [deleteTask, hget, hc]

/-- Shape of `deleteTask` on a missing id. -/
theorem deleteTask_notFound (st : Store) (id caller : String) (hget : st.get id = none) :
    deleteTask st id caller = (Except.error (notFoundDeleteMsg id), st) := by
  simp [deleteTask, hget]

/-! ### Claims -/

/-- C10: `sendDueDateReminder` never modifies the store: for every store,
task id and current time, the store after the call equals the store before
the call, on the advisory path, the not-overdue path and the not-found
path alike, even though the handler is exposed as an update call. -/
theorem C10_sendDueDateReminder_frame (st : Store) (id now : String) :
    (sendDueDateReminder st id now).2 = st :=
  sendDueDateReminder_store_eq st id now

/-- C4: for every payload in which at least one of title, description,
assigned_to, due_date is empty, `addTask` returns the invalid-input error
and the store is unchanged: no task is inserted. -/
theorem C4_addTask_invalidInput (st : Store) (payload : TaskPayload)
    (caller newId : String) (now : Nat)
    (h : payload.title = "" ∨ payload.description = "" ∨
      payload.assigned_to = "" ∨ payload.due_date = "") :
    addTask st payload caller newId now = (Except.error invalidInputMsg, st) := by
  unfold addTask
  rw [if_pos h]

/-- Witness for C4: a payload with an empty title is rejected and the
store is unchanged. -/
theorem C4_witness :
    addTask exStore emptyTitlePayload "alice" "u1" 7 =
      (Except.error invalidInputMsg, exStore) :=
  C4_addTask_invalidInput exStore emptyTitlePayload "alice" "u1" 7 (Or.inl rfl)

/-- C8: for every existing task whose assigned_to field is the empty
string, `completedTask` on its id returns the unassigned error and the
whole stored record, status included, is unchanged. -/
theorem C8_completedTask_unassigned (st : Store) (id : String) (task : Task)
    (hget : st.get id = some task) (ha : task.assigned_to = "") :
    completedTask st id = (Except.error unassignedMsg, st) ∧
    (completedTask st id).2.get id = some task := by
  have h := completedTask_unassigned_shape st id task hget ha
  exact ⟨h, by rw [h]; exact hget⟩

/-- Witness for C8 on a concrete unassigned task. -/
theorem C8_witness :
    completedTask exStoreUnassigned "t9" = (Except.error unassignedMsg, exStoreUnassigned) ∧
    (completedTask exStoreUnassigned "t9").2.get "t9" = some exTaskUnassigned :=
  C8_completedTask_unassigned exStoreUnassigned "t9" exTaskUnassigned rfl rfl

/-- C3: every operation is atomic with respect to the store: whenever a
handler returns the error variant, the store it returns equals the store
it was called on; no partial mutation is persisted on any error path.
The read-only query handlers return no store at all in this embedding, so
the property is stated for every state-passing handler. -/
theorem C3_atomicity (st : Store) (id caller newId comment priority nowS : String)
    (payload : TaskPayload) (tags : List String) (now : Nat) :
    ((completedTask st id).1.isOk = false → (completedTask st id).2 = st) ∧
    ((addTask st payload caller newId now).1.isOk = false →
      (addTask st payload caller newId now).2 = st) ∧
    ((addTags st id tags caller now).1.isOk = false →
      (addTags st id tags caller now).2 = st) ∧
    ((updateTask st id payload caller now).1.isOk = false →
      (updateTask st id payload caller now).2 = st) ∧
    ((deleteTask st id caller).1.isOk = false → (deleteTask st id caller).2 = st) ∧
    ((addTaskComment st id comment).1.isOk = false → (addTaskComment st id comment).2 = st) ∧
    ((setTaskPriority st id priority caller).1.isOk = false →
      (setTaskPriority st id priority caller).2 = st) ∧
    ((sendDueDateReminder st id nowS).1.isOk = false →
      (sendDueDateReminder st id nowS).2 = st) :=
  ⟨completedTask_err_frame st id, addTask_err_frame st payload caller newId now,
   addTags_err_frame st id tags caller now, updateTask_err_frame st id payload caller now,
   deleteTask_err_frame st id caller, addTaskComment_err_frame st id comment,
   setTaskPriority_err_frame st id priority caller,
   fun _ => sendDueDateReminder_store_eq st id nowS⟩

/-- Witness for C3: on a concrete store every handler, driven into its
error path, hands back the store unchanged. -/
theorem C3_witness :
    (completedTask [] "x").2 = ([] : Store) ∧
    (addTask [] emptyTitlePayload "p" "u" 0).2 = ([] : Store) ∧
    (addTags [] "x" [] "p" 0).2 = ([] : Store) ∧
    (updateTask [] "x" exPayload "p" 0).2 = ([] : Store) ∧
    (deleteTask [] "x" "p").2 = ([] : Store) ∧
    (addTaskComment [] "x" "c").2 = ([] : Store) ∧
    (setTaskPriority [] "x" "High" "p").2 = ([] : Store) ∧
    (sendDueDateReminder [] "x" "2024").2 = ([] : Store) := by
  have h := C3_atomicity [] "x" "p" "u" "c" "High" "2024" emptyTitlePayload [] 0
  exact ⟨h.1 rfl, h.2.1 rfl, h.2.2.1 rfl, h.2.2.2.1 rfl, h.2.2.2.2.1 rfl,
    h.2.2.2.2.2.1 rfl, h.2.2.2.2.2.2.1 rfl, h.2.2.2.2.2.2.2 rfl⟩

/-- C5: for every existing task and every caller distinct from its
creator, `getTask`, `updateTask`, `deleteTask`, `addTags` (with non-empty
tags) and `setTaskPriority` return the not-authorized error and leave the
store unchanged. -/
theorem C5_notAuthorized (st : Store) (id caller priority : String) (task : Task)
    (payload : TaskPayload) (tags : List String) (now : Nat)
    (hget : st.get id = some task) (hne : task.creator ≠ caller) (htags : tags ≠ []) :
    getTask st id caller = Except.error notAuthorizedMsg ∧
    updateTask st id payload caller now = (Except.error notAuthorizedMsg, st) ∧
    deleteTask st id caller = (Except.error notAuthorizedMsg, st) ∧
    addTags st id tags caller now = (Except.error notAuthorizedMsg, st) ∧
    setTaskPriority st id priority caller = (Except.error notAuthorizedPriorityMsg, st) :=
  ⟨getTask_notAuth st id caller task hget hne,
   updateTask_notAuth st id task payload caller now hget hne,
   deleteTask_notAuth st id task caller hget hne,
   addTags_notAuth st id task tags caller now hget htags hne,
   setTaskPriority_notAuth st id priority caller task hget hne⟩

/-- Witness for C5: a stranger principal is turned away by all five
handlers on a concrete store. -/
theorem C5_witness :
    getTask exStore "t1" "mallory" = Except.error notAuthorizedMsg ∧
    updateTask exStore "t1" exPayload "mallory" 5 = (Except.error notAuthorizedMsg, exStore) ∧
    deleteTask exStore "t1" "mallory" = (Except.error notAuthorizedMsg, exStore) ∧
    addTags exStore "t1" ["urgent"] "mallory" 5 = (Except.error notAuthorizedMsg, exStore) ∧
    setTaskPriority exStore "t1" "High" "mallory" =
      (Except.error notAuthorizedPriorityMsg, exStore) :=
  C5_notAuthorized exStore "t1" "mallory" "High" exTask exPayload ["urgent"] 5 rfl
    (by decide) (by decide)

/-- Counterexample to C2 as stated: `completedTask` takes no caller and
performs no creator check, so a principal other than the creator does not
get an error; the call succeeds and the stored task changes. -/
theorem C2_counterexample :
    exTask.creator ≠ "mallory" ∧
    (completedTask exStore "t1").1.isOk = true ∧
    (completedTask exStore "t1").2.get "t1" ≠ some exTask := by
  refine ⟨by decide, rfl, by decide⟩

/-- C2 amended: `updateTask`, `deleteTask`, `addTags` (non-empty tags) and
`setTaskPriority` reject a non-creator caller and leave the store
unchanged, but `completedTask` is not ownership-checked: it takes no
caller at all and succeeds on any existing assigned task. -/
theorem C2_ownership_amended (st : Store) (id caller priority : String) (task : Task)
    (payload : TaskPayload) (tags : List String) (now : Nat)
    (hget : st.get id = some task) (hne : task.creator ≠ caller) (htags : tags ≠ [])
    (ha : task.assigned_to ≠ "") :
    updateTask st id payload caller now = (Except.error notAuthorizedMsg, st) ∧
    deleteTask st id caller = (Except.error notAuthorizedMsg, st) ∧
    addTags st id tags caller now = (Except.error notAuthorizedMsg, st) ∧
    setTaskPriority st id priority caller = (Except.error notAuthorizedPriorityMsg, st) ∧
    completedTask st id =
      (Except.ok { task with status := "Completed" },
       st.insert task.id { task with status := "Completed" }) :=
  ⟨updateTask_notAuth st id task payload caller now hget hne,
   deleteTask_notAuth st id task caller hget hne,
   addTags_notAuth st id task tags caller now hget htags hne,
   setTaskPriority_notAuth st id priority caller task hget hne,
   completedTask_success st id task hget ha⟩

/-- Witness for the amended C2 on a concrete store and a stranger
principal. -/
theorem C2_witness :
    deleteTask exStore "t1" "mallory" = (Except.error notAuthorizedMsg, exStore) ∧
    completedTask exStore "t1" =
      (Except.ok { exTask with status := "Completed" },
       exStore.insert exTask.id { exTask with status := "Completed" }) := by
  have h := C2_ownership_amended exStore "t1" "mallory" "High" exTask exPayload ["urgent"] 5
    rfl (by decide) (by decide) (by decide)
  exact ⟨h.2.1, h.2.2.2.2⟩

/-- Counterexample to C1 as stated: `completedTask` is one of the listed
mutating operations, yet after it succeeds on a never-updated task the
stored updated_at field is still `none`. -/
theorem C1_counterexample :
    exTask.updated_at = none ∧
    (completedTask exStore "t1").1.isOk = true ∧
    ((completedTask exStore "t1").2.get "t1").map Task.updated_at = some none := by
  refine ⟨rfl, rfl, by decide⟩

/-- C1 amended: among the mutating handlers only `addTags` and
`updateTask` stamp updated_at; when they succeed the stored task carries
`some now`.  `completedTask`, `setTaskPriority` and `addTaskComment`
leave the stored updated_at exactly as it was, so a populated updated_at
is never cleared back to `none` by any of the five operations. -/
theorem C1_updated_at_amended (st : Store) (id : String) (task : Task)
    (hget : st.get id = some task) (hid : task.id = id)
    (tags : List String) (caller : String) (payload : TaskPayload)
    (priority comment : String) (now : Nat) :
    ((addTags st id tags caller now).1.isOk = true →
      ((addTags st id tags caller now).2.get id).map Task.updated_at = some (some now)) ∧
    ((updateTask st id payload caller now).1.isOk = true →
      ((updateTask st id payload caller now).2.get id).map Task.updated_at = some (some now)) ∧
    ((completedTask st id).2.get id).map Task.updated_at = some task.updated_at ∧
    ((setTaskPriority st id priority caller).2.get id).map Task.updated_at =
      some task.updated_at ∧
    ((addTaskComment st id comment).2.get id).map Task.updated_at = some task.updated_at := by
  refine ⟨?_, ?_, ?_, ?_, ?_⟩
  · intro hok
    by_cases ht : tags = []
    · rw [ht] at hok
      simp [addTags, Except.isOk, Except.toBool] at hok
    · by_cases hc : task.creator = caller
      · rw [addTags_success st id task tags caller now hget ht hc, hid,
          Store.get_insert_self]
        rfl
      · rw [addTags_notAuth st id task tags caller now hget ht hc] at hok
        simp [Except.isOk, Except.toBool] at hok
  · intro hok
    by_cases hc : task.creator = caller
    · rw [updateTask_success st id task payload caller now hget hc, hid,
        Store.get_insert_self]
      rfl
    · rw [updateTask_notAuth st id task payload caller now hget hc] at hok
      simp [Except.isOk, Except.toBool] at hok
  · by_cases ha : task.assigned_to = ""
    · rw [completedTask_unassigned_shape st id task hget ha]
      simp [hget]
    · rw [completedTask_success st id task hget ha, hid, Store.get_insert_self]
      rfl
  · by_cases hc : task.creator = caller
    · rw [setTaskPriority_success st id priority caller task hget hc, hid,
        Store.get_insert_self]
      rfl
    · rw [setTaskPriority_notAuth st id priority caller task hget hc]
      simp [hget]
  · rw [addTaskComment_success st id comment task hget, hid, Store.get_insert_self]
    rfl

/-- Witness for the amended C1: a successful `addTags` stamps updated_at
with the current time, and `completedTask` hands the old (here `none`)
updated_at through unchanged. -/
theorem C1_witness :
    ((addTags exStore "t1" ["urgent"] "alice" 5).2.get "t1").map Task.updated_at =
      some (some 5) ∧
    ((completedTask exStore "t1").2.get "t1").map Task.updated_at =
      some exTask.updated_at := by
  have h := C1_updated_at_amended exStore "t1" exTask rfl rfl ["urgent"] "alice" exPayload
    "High" "note" 5
  exact ⟨h.1 rfl, h.2.2.1⟩

/-- C6: `loadMoreTasks(offset, limit)` returns exactly the slice
`[offset, offset+limit)` of the value enumeration of the store in key
order, and an out-of-range offset yields the empty list. -/
theorem C6_loadMoreTasks_slice (st : Store) (offset limit : Nat) :
    loadMoreTasks st offset limit = Except.ok ((st.values.drop offset).take limit) ∧
    (st.values.length ≤ offset → loadMoreTasks st offset limit = Except.ok []) := by
  have hmain : loadMoreTasks st offset limit =
      Except.ok ((st.values.drop offset).take limit) := by
    unfold loadMoreTasks jsSlice
    rw [List.take_drop]
  refine ⟨hmain, fun h => ?_⟩
  rw [hmain, List.drop_eq_nil_of_le h, List.take_nil]

/-- Witness for C6: on a store of five tasks ordered t1..t5,
`loadMoreTasks(2, 2)` returns the third and fourth tasks, and an offset
past the end returns the empty list. -/
theorem C6_witness :
    loadMoreTasks ex5Store 2 2 =
      Except.ok [mkTask "alice" "t3" "three" "bob" "2024-01-03",
        mkTask "alice" "t4" "four" "bob" "2024-01-04"] ∧
    loadMoreTasks ex5Store 7 2 = Except.ok [] := by
  have h := C6_loadMoreTasks_slice ex5Store 2 2
  have h2 := C6_loadMoreTasks_slice ex5Store 7 2
  exact ⟨by rw [h.1]; rfl, h2.2 (by decide)⟩

/-- C7: `getOverdueTasks` returns exactly those tasks, in store order,
whose due_date string-compares lexicographically below the current ISO
time string and whose status is not Completed. -/
theorem C7_getOverdueTasks_spec (st : Store) (now : String) :
    ∃ l, getOverdueTasks st now = Except.ok l ∧
      List.Sublist l st.values ∧
      ∀ t, t ∈ l ↔ t ∈ st.values ∧ t.due_date < now ∧ t.status ≠ "Completed" := by
  refine ⟨st.values.filter
    (fun task => decide (task.due_date < now) && !(task.status == "Completed")),
    rfl, List.filter_sublist _, fun t => ?_⟩
  simp [List.mem_filter, and_assoc]

/-- C9: a successful `deleteTask` removes the id from the store, so a
subsequent `getTask` on the same id by the same caller reports not
found. -/
theorem C9_delete_then_get (st : Store) (id caller : String) (task : Task)
    (h : (deleteTask st id caller).1 = Except.ok task) :
    (deleteTask st id caller).2.get id = none ∧
    getTask (deleteTask st id caller).2 id caller = Except.error (notFoundMsg id) := by
  have h2 : (deleteTask st id caller).2 = st.remove id := by
    cases hg : st.get id with
    | none =>
      rw [deleteTask_notFound st id caller hg] at h
      exact Except.noConfusion h
    | some t =>
      by_cases hc : t.creator = caller
      · rw [deleteTask_success st id caller t hg hc]
      · rw [deleteTask_notAuth st id t caller hg hc] at h
        exact Except.noConfusion h
  have hnone : (deleteTask st id caller).2.get id = none := by
    rw [h2]
    exact Store.get_remove_self st id
  refine ⟨hnone, ?_⟩
  unfold getTask
  rw [hnone]

/-- Witness for C9: the creator deletes a concrete task and the follow-up
lookup fails with not-found. -/
theorem C9_witness :
    (deleteTask exStore "t1" "alice").2.get "t1" = none ∧
    getTask (deleteTask exStore "t1" "alice").2 "t1" "alice" =
      Except.error (notFoundMsg "t1") :=
  C9_delete_then_get exStore "t1" "alice" exTask rfl

end TaskCanister
